import Mathlib

/-!
Shallow embedding of the decision pipeline of `src/backend/ml/predict.py`
(KrushiSetu / GreenTrace ML inference engine).

Modelling conventions:
* Python strings are `List Char` (`Label`); `strL` converts a Lean string
  literal to that representation.
* NumPy float scores are modelled as rationals (`ℚ`).
* Python dicts used as read-only lookup tables are association lists
  queried with `List.lookup`, with `Option.getD` for `dict.get(k, default)`.
* `np.argsort` is modelled as an insertion sort of the index list by the
  lexicographic key (score, index) ascending.  NumPy's default quicksort
  is documented as unstable, so the tie order of this model is one
  admissible refinement of the code's behaviour (exact on NumPy's
  small-array insertion-sort path); theorems about candidate selection
  therefore assert only tie-independent consequences, except for
  concrete small-array counterexamples.
* I/O-dependent stages (file existence, imports, download, model
  execution) are modelled by an environment record whose fields say
  whether each stage succeeded or raised, carrying the exception message.
-/

namespace GreenTrace

/-- A Python string, as a list of characters. -/
abbrev Label := List Char

/-- Convert a Lean string literal to the `Label` representation. -/
def strL (s : String) : Label := s.toList

/-- `predict.py` line 224: the fallback class name for an index missing
from `class_names`, and the artifact class name skipped at line 225. -/
def unknownLabel : Label := strL "Unknown"

/-- The artifact class label skipped by `predict.py` line 225. -/
def plantVillageLabel : Label := strL "PlantVillage"

/- ── Python `str.split("___")` and friends (predict.py lines 246-248) ── -/

/-- Helper: prepend a character to the first piece of a split result
(used to model the scan of Python `str.split`). -/
def consHead (c : Char) : List Label → List Label
  | [] => [[c]]
  | p :: ps => (c :: p) :: ps

/-- Python `s.split("___")`: split at each non-overlapping, leftmost-first
occurrence of the three-underscore separator. -/
def split3 : Label → List Label
  | '_' :: '_' :: '_' :: rest => [] :: split3 rest
  | c :: rest => consHead c (split3 rest)
  | [] => [[]]

/-- Python `"___" in s`: substring test for the three-underscore separator. -/
def contains3 : Label → Bool
  | '_' :: '_' :: '_' :: _ => true
  | _ :: rest => contains3 rest
  | [] => false

/-- Python `s.replace("_", " ")`. -/
def underscoreToSpace (s : Label) : Label :=
  s.map (fun c => if c = '_' then ' ' else c)

/-- `predict.py` lines 247-248 (the branch taken when `disease_data` is
empty): derive the crop name and the disease name from the class label. -/
def decomposeLabel (predicted_class : Label) : Label × Label :=
  if contains3 predicted_class then
    (underscoreToSpace ((split3 predicted_class).getD 0 []),
     underscoreToSpace ((split3 predicted_class).getD 1 []))
  else
    (predicted_class, predicted_class)

/- ── np.max / np.argmax (predict.py lines 205, 231-232) ── -/

/-- Model of one pass computing `np.argmax` and `np.max` together: returns
`some (firstIndexOfMax, maxValue)` on a nonempty list, `none` on `[]`
(where NumPy would raise). -/
def pyBest : List ℚ → Option (Nat × ℚ)
  | [] => none
  | x :: rest =>
    match pyBest rest with
    | none => some (0, x)
    | some (i, m) => if x < m then some (i + 1, m) else some (0, x)

/-- `np.argmax(predictions)`: index of the first occurrence of the maximum. -/
def pyArgmax (l : List ℚ) : Nat := ((pyBest l).getD (0, 0)).1

/-- `float(np.max(predictions))`: the maximum score. -/
def pyMax (l : List ℚ) : ℚ := ((pyBest l).getD (0, 0)).2

/- ── Top-k selection (predict.py line 219) ── -/

/-- The comparison key of the ascending argsort: index `i` comes no later
than index `j` when its score is smaller, or the scores are equal and
`i ≤ j` (the tie order of a stable ascending `np.argsort`). -/
def argLe (scores : List ℚ) (i j : Nat) : Prop :=
  scores.getD i 0 < scores.getD j 0 ∨ (scores.getD i 0 = scores.getD j 0 ∧ i ≤ j)

instance (scores : List ℚ) : DecidableRel (argLe scores) := by
  intro i j; unfold argLe; infer_instance

instance (scores : List ℚ) : IsTotal Nat (argLe scores) where
  total i j := by
    unfold argLe
    rcases lt_trichotomy (scores.getD i 0) (scores.getD j 0) with h | h | h
    · exact Or.inl (Or.inl h)
    · rcases Nat.le_total i j with hij | hij
      · exact Or.inl (Or.inr ⟨h, hij⟩)
      · exact Or.inr (Or.inr ⟨h.symm, hij⟩)
    · exact Or.inr (Or.inl h)

instance (scores : List ℚ) : IsTrans Nat (argLe scores) where
  trans i j k hij hjk := by
    unfold argLe at *
    rcases hij with h1 | ⟨e1, l1⟩
    · rcases hjk with h2 | ⟨e2, _⟩
      · exact Or.inl (h1.trans h2)
      · exact Or.inl (e2 ▸ h1)
    · rcases hjk with h2 | ⟨e2, l2⟩
      · exact Or.inl (e1 ▸ h2)
      · exact Or.inr ⟨e1.trans e2, l1.trans l2⟩

/-- `predictions.argsort()`: the list of all indices of `scores`, sorted
ascending by score.  Equal scores are kept in index order here; NumPy's
default quicksort guarantees no particular tie order (it is stable only
on its small-array insertion-sort path), so this is one admissible
refinement of the code, and properties of the program must not depend on
this tie choice. -/
def argsortAsc (scores : List ℚ) : List Nat :=
  List.insertionSort (argLe scores) (List.range scores.length)

/-- `predictions.argsort()[-5:][::-1]` (predict.py line 219): the indices
of the top 5 scores, highest first.  Inherits the tie-order refinement of
`argsortAsc`. -/
def topKIndices (scores : List ℚ) : List Nat :=
  ((argsortAsc scores).drop (scores.length - 5)).reverse

/- ── Candidate resolution (predict.py lines 220-234) ── -/

/-- `class_names.get(int(idx), "Unknown")` (predict.py line 224), where
`class_names` is the index→label dict inverted from `class_indices.json`. -/
def classNameOf (class_names : List (Nat × Label)) (idx : Nat) : Label :=
  (List.lookup idx class_names).getD unknownLabel

/-- A candidate index survives the skip filter of predict.py line 225 when
its label is neither `"PlantVillage"` nor `"Unknown"`. -/
def survives (class_names : List (Nat × Label)) (idx : Nat) : Prop :=
  ¬(classNameOf class_names idx = plantVillageLabel ∨
    classNameOf class_names idx = unknownLabel)

instance (class_names : List (Nat × Label)) (idx : Nat) :
    Decidable (survives class_names idx) := by
  unfold survives; infer_instance

/-- The `for idx in top_k_indices` loop of predict.py lines 223-228:
return the first candidate whose label is neither `"PlantVillage"` nor
`"Unknown"`, with its raw score; `none` when every candidate is skipped
(the loop ends with the sentinel `predicted_class_idx == -1`). -/
def resolveCandidates (class_names : List (Nat × Label)) (preds : List ℚ) :
    List Nat → Option (Nat × ℚ)
  | [] => none
  | idx :: rest =>
    if survives class_names idx then some (idx, preds.getD idx 0)
    else resolveCandidates class_names preds rest

/-- predict.py lines 219-232: run the skip-filter loop over the top-5
candidates; on the sentinel, fall back to the global argmax and `np.max`. -/
def resolveStep (class_names : List (Nat × Label)) (preds : List ℚ) : Nat × ℚ :=
  match resolveCandidates class_names preds (topKIndices preds) with
  | some (idx, conf) => (idx, conf)
  | none => (pyArgmax preds, pyMax preds)

/- ── Rounding and number rendering (Python round / f-strings) ── -/

/-- Python `round` on a half-integer boundary: round half to even. -/
def roundHalfEven (x : ℚ) : ℤ :=
  let n := Int.floor x
  let r := x - (n : ℚ)
  if r < 1 / 2 then n
  else if 1 / 2 < r then n + 1
  else if Even n then n else n + 1

/-- Python `round(x, 4)` (predict.py line 259). -/
def roundTo4 (x : ℚ) : ℚ := (roundHalfEven (x * 10000) : ℚ) / 10000

/-- Render a natural number in decimal. -/
def natToStr (n : Nat) : Label := Nat.toDigits 10 n

/-- Render an integer in decimal, as Python `f"{i}"` does. -/
def intToStr (i : Int) : Label :=
  if i < 0 then '-' :: natToStr i.natAbs else natToStr i.natAbs

/-- Render `round(confidence*100, 1)` as Python formats that float: the
integer part, a dot, and one tenths digit (predict.py lines 237, 263). -/
def percent1 (confidence : ℚ) : Label :=
  let tenths := roundHalfEven (confidence * 100 * 10)
  if tenths < 0 then
    '-' :: (natToStr (tenths.natAbs / 10) ++ '.' :: natToStr (tenths.natAbs % 10))
  else
    natToStr (tenths.natAbs / 10) ++ '.' :: natToStr (tenths.natAbs % 10)

/- ── Metadata records (disease_info.json entries) ── -/

/-- One entry of `disease_info.json`, as read by predict.py lines 241-273:
a Python dict in which every field may be absent. -/
structure DiseaseData where
  crop : Option Label := none
  disease : Option Label := none
  health_status : Option Label := none
  diagnosis : Option Label := none
  chemical_treatment : Option (List Label) := none
  organic_treatment : Option (List Label) := none
  irrigation_advice : Option Label := none
  fertilizer_advice : Option Label := none
  growth_stage : Option Label := none
  days_to_harvest : Option Int := none
  tutorial : Option (List Label) := none
deriving DecidableEq

/-- The empty dict `{}` (the default of `full_disease_info.get(..., {})`). -/
def DiseaseData.empty : DiseaseData := {}

/- ── Result assembly (predict.py lines 241-283) ── -/

/-- The `data` object of the success result emitted at predict.py
lines 252-283.  The wall-clock field `executionTimeMs` is I/O and is not
modelled; every other field of the emitted JSON object is a field here,
so a `SuccessData` value has no absent and no null field by construction. -/
structure SuccessData where
  modelUsed : Label
  predictedClass : Label
  crop : Label
  disease : Label
  confidence : ℚ
  plantHealth : Label
  diagnosis : Label
  treatment : List Label
  organicTreatment : List Label
  irrigationAdvice : Label
  fertilizerAdvice : Label
  growthStageStage : Label
  growthStageDaysToHarvest : Int
  tutorial : List Label
  soilInsightsTips : List Label
  weatherImpactRiskLevel : Label
  weatherImpactAdvice : Label
deriving DecidableEq

/-- Does the string start with the given pattern? -/
def startsWithPat : Label → Label → Bool
  | [], _ => true
  | _ :: _, [] => false
  | p :: ps, c :: cs => p = c && startsWithPat ps cs

/-- Python `pat in s` for strings: substring containment. -/
def containsSub (pat : Label) : Label → Bool
  | [] => pat.isEmpty
  | c :: rest => startsWithPat pat (c :: rest) || containsSub pat rest

/-- Python `"healthy" in disease_name.lower()` (predict.py line 260). -/
def containsHealthy (disease_name : Label) : Bool :=
  containsSub (strL "healthy") (disease_name.map Char.toLower)

/-- The templated diagnosis default of predict.py line 263. -/
def diagTemplate (crop_name disease_name : Label) (confidence : ℚ) : Label :=
  strL "ML model detected " ++ disease_name ++ strL " in " ++ crop_name ++
    strL " with " ++ percent1 confidence ++ strL "% confidence."

/-- predict.py lines 241-283: merge the resolved class, its confidence and
the (possibly absent, possibly empty) metadata record into the success
`data` object, with the documented default for every absent field. -/
def assemble (predicted_class : Label) (confidence : ℚ)
    (full_disease_info : List (Label × DiseaseData)) : SuccessData :=
  let disease_data := (List.lookup predicted_class full_disease_info).getD .empty
  let crop_name :=
    if disease_data ≠ .empty then disease_data.crop.getD unknownLabel
    else (decomposeLabel predicted_class).1
  let disease_name :=
    if disease_data ≠ .empty then disease_data.disease.getD unknownLabel
    else (decomposeLabel predicted_class).2
  { modelUsed := strL "crop_disease_model.h5 (Local CNN)"
    predictedClass := predicted_class
    crop := crop_name
    disease := disease_name
    confidence := roundTo4 confidence
    plantHealth := disease_data.health_status.getD
      (if containsHealthy disease_name then strL "Healthy" else strL "Diseased")
    diagnosis := disease_data.diagnosis.getD
      (diagTemplate crop_name disease_name confidence)
    treatment := disease_data.chemical_treatment.getD
      [strL "Consult a local agronomist for treatment advice."]
    organicTreatment := disease_data.organic_treatment.getD
      [strL "Apply neem-based organic pesticide as a general precaution."]
    irrigationAdvice := disease_data.irrigation_advice.getD
      (strL "Monitor soil moisture; avoid waterlogging.")
    fertilizerAdvice := disease_data.fertilizer_advice.getD
      (strL "Maintain balanced NPK nutrition.")
    growthStageStage := disease_data.growth_stage.getD unknownLabel
    growthStageDaysToHarvest := disease_data.days_to_harvest.getD 0
    tutorial := disease_data.tutorial.getD []
    soilInsightsTips :=
      [strL "Ensure soil is well-drained.",
       strL "Check and maintain appropriate pH levels."]
    weatherImpactRiskLevel := strL "Monitor"
    weatherImpactAdvice :=
      strL "Monitor local weather forecasts for humidity spikes which promote fungal spread." }

/-- The three result shapes of the image pipeline once scores exist: the
failure shape `{success:false, status:"model_error", error}`, the
rejection shape `{success:true, status:"invalid_image", message}` and the
success shape `{success:true, data}`. -/
inductive ImageResult where
  | modelError (error : Label)
  | invalidImage (message : Label)
  | success (data : SuccessData)
deriving DecidableEq

/-- The caller-facing rejection message of predict.py line 214. -/
def invalidImageMsg : Label :=
  strL "Non-agricultural image detected. Please upload a clear photo of a crop leaf, plant, or soil."

/-- predict.py lines 205-283, the pure decision pipeline: confidence gate,
candidate resolution and result assembly over a concrete score vector. -/
def predictCore (scores : List ℚ) (class_names : List (Nat × Label))
    (full_disease_info : List (Label × DiseaseData)) : ImageResult :=
  let top_confidence := pyMax scores
  if top_confidence < 15 / 100 then .invalidImage invalidImageMsg
  else
    let r := resolveStep class_names scores
    let predicted_class := classNameOf class_names r.1
    .success (assemble predicted_class r.2 full_disease_info)

/- ── The full image pipeline with its I/O boundary (predict.py 100-287) ── -/

/-- The outcome of every fallible external stage of `predict`, in the
order the code runs them.  A `some e` in an error field means that stage
raised with exception message `e`; `none` means it succeeded.
`classIndices = none` models an absent `class_indices.json` (predict.py
lines 145-147, a degraded mode, not an error). -/
structure ImageEnv where
  modelPath : Label
  modelExists : Bool
  tfImportErr : Option Label
  loadErr : Option Label
  classIndices : Option (List (Nat × Label))
  diseaseInfo : List (Label × DiseaseData)
  downloadErr : Option Label
  inferErr : Option Label
  scores : List ℚ

/-- predict.py lines 100-287: the whole `predict` function.  Each fallible
stage either passes control on or is caught and emitted as the single
failure shape `{success:false, status:"model_error", error}`:
missing model file (line 107), TensorFlow import (line 124), exceptions
while loading the model or its JSON side files (outer `except`, line 285),
download failure (inner `except`, line 177), exceptions during
preprocessing or inference (outer `except`, line 285), then the pure
decision pipeline `predictCore`. -/
def predict (env : ImageEnv) : ImageResult :=
  if env.modelExists = false then
    .modelError (strL "Model not loaded — file not found: " ++ env.modelPath)
  else match env.tfImportErr with
  | some e =>
    .modelError (strL "TensorFlow missing: " ++ e ++
      strL ". Run: pip install -r requirements.txt")
  | none => match env.loadErr with
    | some e => .modelError e
    | none =>
      let class_names := env.classIndices.getD [(0, unknownLabel)]
      match env.downloadErr with
      | some e => .modelError (strL "Failed to download image: " ++ e)
      | none => match env.inferErr with
        | some e => .modelError e
        | none => predictCore env.scores class_names env.diseaseInfo

/- ── The soil pipeline (predict.py lines 41-96) ── -/

/-- The result shapes of `predict_soil`: the failure shape
`{success:false, status:"model_error", error}` and the success shape
`{success:true, data:{status, predictionClass, recommendation, ...}}`
(the constant `soilType` and the wall-clock `executionTimeMs` of the
emitted `data` are not modelled). -/
inductive SoilResult where
  | modelError (error : Label)
  | success (status : Label) (predictionClass : Int) (recommendation : Label)
deriving DecidableEq

/-- `status_map` (predict.py lines 71-75) queried with
`status_map.get(prediction, f"Class {prediction}")` (line 87). -/
def soilStatus (prediction : Int) : Label :=
  (List.lookup prediction
    [((0 : Int), strL "Balanced Soil"),
     (1, strL "Nutrient Deficient — Low Nitrogen / Organic Matter"),
     (2, strL "Nutrient Deficient — Low Phosphorus / Potassium")]).getD
    (strL "Class " ++ intToStr prediction)

/-- `rec_map` (predict.py lines 76-80) queried with
`rec_map.get(prediction, "Consult an agronomist.")` (line 89). -/
def soilRec (prediction : Int) : Label :=
  (List.lookup prediction
    [((0 : Int), strL "Soil is well-balanced. Maintain regular composting and pH monitoring."),
     (1, strL "Apply organic compost or urea to restore nitrogen levels. Consider green manure."),
     (2, strL "Apply DAP (Di-ammonium Phosphate) or MOP (Muriate of Potash) as appropriate.")]).getD
    (strL "Consult an agronomist.")

/-- The outcome of every fallible external stage of `predict_soil`, in
code order: soil model file existence (line 44), the pickle/pandas import
(lines 49-55), unpickling the model (lines 60-61), parsing the
comma-separated feature string with `float` (line 64), and running
`model.predict` (line 68). -/
structure SoilEnv where
  soilModelPath : Label
  modelExists : Bool
  importErr : Option Label
  loadErr : Option Label
  parseResult : Except Label (List ℚ)
  modelPredict : Except Label Int

/-- predict.py lines 41-96: the whole `predict_soil` function.  Every
failure path is caught and emitted as the single failure shape; a
successful prediction is mapped through `status_map` / `rec_map` with
their templated defaults. -/
def predict_soil (env : SoilEnv) : SoilResult :=
  if env.modelExists = false then
    .modelError (strL "Soil model not found: " ++ env.soilModelPath)
  else match env.importErr with
  | some e => .modelError (strL "Missing Python dependency: " ++ e)
  | none => match env.loadErr with
    | some e => .modelError e
    | none => match env.parseResult with
      | .error e => .modelError e
      | .ok _ => match env.modelPredict with
        | .error e => .modelError e
        | .ok prediction =>
          .success (soilStatus prediction) prediction (soilRec prediction)

/- ════════════════════════ Lemmas ════════════════════════ -/

/-- A string with no `"___"` occurrence is returned whole by `split3`. -/
theorem split3_of_not_contains3 (s : Label) (h : contains3 s = false) :
    split3 s = [s] := by
  induction s with
  | nil => rfl
  | cons c rest ih =>
    have hnt : ∀ (t : List Char), c = '_' → rest = '_' :: '_' :: t → False := by
      intro t hc hr
      subst hc; subst hr
      simp [contains3] at h
    have hrest : contains3 rest = false := by
      rwa [contains3.eq_2 c rest hnt] at h
    rw [split3.eq_2 c rest hnt, ih hrest]
    rfl

/-- If `split3` produces two pieces, the separator occurs in the string. -/
theorem contains3_of_split3_pair {s A B : Label} (h : split3 s = [A, B]) :
    contains3 s = true := by
  cases hc : contains3 s with
  | true => rfl
  | false =>
    rw [split3_of_not_contains3 s hc] at h
    simp at h

/-- The skip-filter loop returns `none` exactly when every candidate is
skipped. -/
theorem resolveCandidates_eq_none_iff
    (class_names : List (Nat × Label)) (preds : List ℚ) (l : List Nat) :
    resolveCandidates class_names preds l = none ↔
      ∀ i ∈ l, ¬ survives class_names i := by
  induction l with
  | nil => simp [resolveCandidates]
  | cons a t ih =>
    by_cases hs : survives class_names a
    · simp [resolveCandidates, hs]
    · simp [resolveCandidates, hs, ih]

/-- When the skip-filter loop picks a candidate, it picks the first
surviving one, together with its raw score. -/
theorem resolveCandidates_eq_some
    {class_names : List (Nat × Label)} {preds : List ℚ} {l : List Nat}
    {i : Nat} {c : ℚ}
    (h : resolveCandidates class_names preds l = some (i, c)) :
    c = preds.getD i 0 ∧ survives class_names i ∧
      ∃ pre post, l = pre ++ i :: post ∧ ∀ j ∈ pre, ¬ survives class_names j := by
  induction l with
  | nil => simp [resolveCandidates] at h
  | cons a t ih =>
    by_cases hs : survives class_names a
    · rw [resolveCandidates, if_pos hs] at h
      obtain ⟨rfl, rfl⟩ : a = i ∧ preds.getD a 0 = c := by
        constructor <;> [skip; skip] <;> injection h with h' <;>
          cases h' <;> simp_all
      exact ⟨rfl, hs, [], t, rfl, by simp⟩
    · rw [resolveCandidates, if_neg hs] at h
      obtain ⟨hc, hsi, pre, post, rfl, hpre⟩ := ih h
      refine ⟨hc, hsi, a :: pre, post, rfl, ?_⟩
      intro j hj
      rcases List.mem_cons.mp hj with rfl | hj
      · exact hs
      · exact hpre j hj

/-- `pyBest` returns an index/value pair in which the value is the score
stored at the index. -/
theorem pyBest_getD {l : List ℚ} {i : Nat} {m : ℚ}
    (h : pyBest l = some (i, m)) : l.getD i 0 = m := by
  induction l generalizing i m with
  | nil => simp [pyBest] at h
  | cons x rest ih =>
    cases hb : pyBest rest with
    | none =>
      simp [pyBest, hb] at h
      obtain ⟨rfl, rfl⟩ := h
      rfl
    | some p =>
      obtain ⟨i', m'⟩ := p
      simp [pyBest, hb] at h
      by_cases hx : x < m'
      · rw [if_pos hx] at h
        obtain ⟨rfl, rfl⟩ := h
        simpa using ih hb
      · rw [if_neg hx] at h
        obtain ⟨rfl, rfl⟩ := h
        rfl

/-- On a nonempty list, `pyBest` succeeds. -/
theorem pyBest_isSome {l : List ℚ} (h : l ≠ []) : ∃ p, pyBest l = some p := by
  cases l with
  | nil => exact absurd rfl h
  | cons x rest =>
    cases hpb : pyBest rest with
    | none => exact ⟨(0, x), by simp [pyBest, hpb]⟩
    | some p =>
      obtain ⟨i, m⟩ := p
      by_cases hx : x < m
      · exact ⟨(i + 1, m), by simp [pyBest, hpb, if_pos hx]⟩
      · exact ⟨(0, x), by simp [pyBest, hpb, if_neg hx]⟩

/-- `np.max` is the score stored at the `np.argmax` index. -/
theorem pyMax_eq_getD_pyArgmax {l : List ℚ} (h : l ≠ []) :
    l.getD (pyArgmax l) 0 = pyMax l := by
  obtain ⟨⟨i, m⟩, hp⟩ := pyBest_isSome h
  rw [pyArgmax, pyMax, hp]
  exact pyBest_getD hp

/-- The resolver always reports the raw score stored at the index it
returns (first-survivor path and global-argmax fallback alike). -/
theorem resolveStep_confidence
    (class_names : List (Nat × Label)) {scores : List ℚ} (h : scores ≠ []) :
    (resolveStep class_names scores).2 =
      scores.getD (resolveStep class_names scores).1 0 := by
  rw [resolveStep]
  cases hr : resolveCandidates class_names scores (topKIndices scores) with
  | none => exact (pyMax_eq_getD_pyArgmax h).symm
  | some p =>
    obtain ⟨i, c⟩ := p
    exact (resolveCandidates_eq_some hr).1

/-- The index list sorted by `argsortAsc` is a permutation of all the
valid indices. -/
theorem argsortAsc_perm (scores : List ℚ) :
    List.Perm (argsortAsc scores) (List.range scores.length) :=
  List.perm_insertionSort _ _

/-- `argsortAsc` sorts ascending by the lexicographic (score, index) key. -/
theorem argsortAsc_pairwise (scores : List ℚ) :
    List.Pairwise (argLe scores) (argsortAsc scores) :=
  List.sorted_insertionSort _ _

/- ════════════════════════ Claim theorems ════════════════════════ -/

/-- Claim C3, counterexample.  The claim asserts that equal scores are
ordered lower-index-first in the candidate list.  On the tied score
vector `[1/2, 1/2]` the code (`predictions.argsort()[-5:][::-1]`)
produces `[1, 0]`: for an array this small NumPy argsorts with its
stable insertion sort, giving `[0, 1]`, and the reversal puts the higher
index first, so the claimed order `[0, 1]` is wrong. -/
theorem claim_C3_counterexample :
    topKIndices [1 / 2, 1 / 2] = [1, 0] ∧ topKIndices [1 / 2, 1 / 2] ≠ [0, 1] := by
  with_unfolding_all decide

/-- Claim C3, amended: for every ScoreVector, the candidate list
considered by the resolver consists of the indices of the top 5 scores
(all indices when fewer than 5 exist), each index valid and listed once,
ordered descending by score, and every index left out scores no higher
than every listed index.  No tie order between equal scores is asserted:
the code reverses NumPy's default argsort, which guarantees none — in
particular the claimed lower-index-first rule does not hold. -/
theorem claim_C3_topk_selection (scores : List ℚ) :
    (topKIndices scores).length = min 5 scores.length ∧
    (topKIndices scores).Nodup ∧
    (∀ i ∈ topKIndices scores, i < scores.length) ∧
    List.Pairwise (fun i j => scores.getD j 0 ≤ scores.getD i 0)
      (topKIndices scores) ∧
    (∀ i ∈ topKIndices scores, ∀ j < scores.length, j ∉ topKIndices scores →
      scores.getD j 0 ≤ scores.getD i 0) := by
  have hle : ∀ a b : Nat, argLe scores a b →
      scores.getD a 0 ≤ scores.getD b 0 := by
    intro a b h
    rcases h with h | ⟨h, _⟩
    · exact le_of_lt h
    · exact le_of_eq h
  have hperm := argsortAsc_perm scores
  have hlen : (argsortAsc scores).length = scores.length := by
    simpa using hperm.length_eq
  have hsorted := argsortAsc_pairwise scores
  have hnodup : (argsortAsc scores).Nodup :=
    hperm.nodup_iff.mpr (List.nodup_range _)
  refine ⟨?_, ?_, ?_, ?_, ?_⟩
  · rw [topKIndices, List.length_reverse, List.length_drop, hlen]
    omega
  · rw [topKIndices, List.nodup_reverse]
    exact hnodup.sublist (List.drop_sublist _ _)
  · intro i hi
    rw [topKIndices, List.mem_reverse] at hi
    have hmem : i ∈ argsortAsc scores := List.drop_subset _ _ hi
    simpa using hperm.mem_iff.mp hmem
  · have hdesc : List.Pairwise (fun i j => argLe scores j i) (topKIndices scores) := by
      rw [topKIndices, List.pairwise_reverse]
      exact List.Pairwise.sublist (List.drop_sublist _ _) hsorted
    exact hdesc.imp (fun h => hle _ _ h)
  · intro i hi j hj hnj
    have hi' : i ∈ (argsortAsc scores).drop (scores.length - 5) := by
      rwa [topKIndices, List.mem_reverse] at hi
    have hnj' : j ∉ (argsortAsc scores).drop (scores.length - 5) := by
      rwa [topKIndices, List.mem_reverse] at hnj
    have hj' : j ∈ argsortAsc scores :=
      hperm.mem_iff.mpr (List.mem_range.mpr hj)
    have hsplit := List.take_append_drop (scores.length - 5) (argsortAsc scores)
    have hj'' : j ∈ (argsortAsc scores).take (scores.length - 5) := by
      rw [← hsplit] at hj'
      rcases List.mem_append.mp hj' with h | h
      · exact h
      · exact absurd h hnj'
    rw [← hsplit] at hsorted
    exact hle _ _ ((List.pairwise_append.mp hsorted).2.2 j hj'' i hi')

/-- Witness for the amended C3 on a six-score vector: the excluded sixth
index scores no higher than the listed top candidate. -/
theorem claim_C3_witness :
    ([9 / 10, 1 / 20, 3 / 100, 1 / 100, 1 / 100, 1 / 200] : List ℚ).getD 5 0 ≤
      ([9 / 10, 1 / 20, 3 / 100, 1 / 100, 1 / 100, 1 / 200] : List ℚ).getD 0 0 :=
  (claim_C3_topk_selection [9 / 10, 1 / 20, 3 / 100, 1 / 100, 1 / 100, 1 / 200]).2.2.2.2
    0 (by with_unfolding_all decide) 5 (by decide) (by with_unfolding_all decide)

/-- Claim C4: label decomposition is total and deterministic.  When the
label splits at the `"___"` separator into exactly the two parts `A` and
`B`, the crop is `A` and the condition is `B`, each with underscores
replaced by spaces; when the label has no `"___"` occurrence, the raw
label is used as both crop and condition. -/
theorem claim_C4_label_decomposition :
    (∀ (label A B : Label), split3 label = [A, B] →
      decomposeLabel label = (underscoreToSpace A, underscoreToSpace B)) ∧
    (∀ label : Label, contains3 label = false →
      decomposeLabel label = (label, label)) := by
  constructor
  · intro label A B h
    have hc := contains3_of_split3_pair h
    rw [decomposeLabel, if_pos hc, h]
    rfl
  · intro label hc
    rw [decomposeLabel, if_neg (by simp [hc])]

/-- Witness for C4 at a concrete structured label and at a concrete
separator-free label. -/
theorem claim_C4_witness :
    decomposeLabel (strL "Tomato___Early_blight") =
      (strL "Tomato", strL "Early blight") ∧
    decomposeLabel (strL "background") = (strL "background", strL "background") := by
  constructor
  · have h := claim_C4_label_decomposition.1 (strL "Tomato___Early_blight")
      (strL "Tomato") (strL "Early_blight") (by decide)
    rw [h]
    decide
  · exact claim_C4_label_decomposition.2 (strL "background") (by decide)

/-- Claim C1: for every ScoreVector accepted by the Confidence Gate
(`max(scores) ≥ 0.15`) and every ClassIndexMap, the resolver walks the
top-5 candidates in order, skips any candidate whose label is exactly
`"PlantVillage"` or `"Unknown"` (an index absent from the map counts as
`"Unknown"`), and returns the first surviving candidate with its raw
score; when every top-5 candidate maps to one of those two labels it
falls back to the global-argmax index and the `np.max` score with no
filter, so the resolver always produces an answer carrying the raw score
stored at the index it returns. -/
theorem claim_C1_candidate_resolver (scores : List ℚ)
    (class_names : List (Nat × Label))
    (hne : scores ≠ []) (_hgate : 15 / 100 ≤ pyMax scores) :
    (resolveStep class_names scores).2 =
      scores.getD (resolveStep class_names scores).1 0 ∧
    ((∃ j ∈ topKIndices scores, survives class_names j) →
      survives class_names (resolveStep class_names scores).1 ∧
      classNameOf class_names (resolveStep class_names scores).1 ≠ plantVillageLabel ∧
      classNameOf class_names (resolveStep class_names scores).1 ≠ unknownLabel ∧
      ∃ pre post,
        topKIndices scores = pre ++ (resolveStep class_names scores).1 :: post ∧
        ∀ j ∈ pre, ¬ survives class_names j) ∧
    ((∀ j ∈ topKIndices scores, ¬ survives class_names j) →
      resolveStep class_names scores = (pyArgmax scores, pyMax scores)) := by
  refine ⟨resolveStep_confidence class_names hne, ?_, ?_⟩
  · rintro ⟨j, hj, hsurv⟩
    cases hr : resolveCandidates class_names scores (topKIndices scores) with
    | none =>
      exact absurd hsurv (((resolveCandidates_eq_none_iff _ _ _).mp hr) j hj)
    | some p =>
      obtain ⟨i, c⟩ := p
      obtain ⟨hc, hsi, pre, post, hdec, hpre⟩ := resolveCandidates_eq_some hr
      have hstep : resolveStep class_names scores = (i, c) := by
        unfold resolveStep
        rw [hr]
      rw [hstep]
      refine ⟨hsi, ?_, ?_, pre, post, hdec, hpre⟩
      · intro hpv
        exact hsi (Or.inl hpv)
      · intro hun
        exact hsi (Or.inr hun)
  · intro hall
    have hnone := (resolveCandidates_eq_none_iff class_names scores _).mpr hall
    unfold resolveStep
    rw [hnone]

/-- Witness for C1 at a concrete gate-passing input in which the top
candidate is the artifact class and the runner-up survives. -/
theorem claim_C1_witness :
    (resolveStep [(0, strL "PlantVillage"), (1, strL "Wheat___Rust")] [9 / 10, 2 / 10]).2 =
      ([9 / 10, 2 / 10] : List ℚ).getD
        (resolveStep [(0, strL "PlantVillage"), (1, strL "Wheat___Rust")] [9 / 10, 2 / 10]).1 0 :=
  (claim_C1_candidate_resolver [9 / 10, 2 / 10]
    [(0, strL "PlantVillage"), (1, strL "Wheat___Rust")]
    (by simp) (by with_unfolding_all decide)).1

/-- Claim C2: for every ScoreVector whose maximum is strictly below 0.15
the pipeline returns the rejection result
`{success:true, status:"invalid_image", message}` regardless of which
index holds the maximum, and for every ScoreVector whose maximum is at
least 0.15 the gate accepts and the pipeline proceeds to candidate
resolution and result assembly. -/
theorem claim_C2_confidence_gate (scores : List ℚ)
    (class_names : List (Nat × Label)) (info : List (Label × DiseaseData)) :
    (pyMax scores < 15 / 100 →
      predictCore scores class_names info = .invalidImage invalidImageMsg) ∧
    (15 / 100 ≤ pyMax scores →
      predictCore scores class_names info =
        .success (assemble
          (classNameOf class_names (resolveStep class_names scores).1)
          (resolveStep class_names scores).2 info)) := by
  constructor
  · intro h
    simp only [predictCore]
    rw [if_pos h]
  · intro h
    simp only [predictCore]
    rw [if_neg (not_lt.mpr h)]

/-- Witness for C2: the spec scenario `[0.05, 0.06, 0.04]` is rejected,
and a high-confidence vector proceeds to resolution. -/
theorem claim_C2_witness :
    predictCore [1 / 20, 6 / 100, 4 / 100] [] [] = .invalidImage invalidImageMsg ∧
    predictCore [9 / 10] [(0, strL "Wheat___Rust")] [] =
      .success (assemble
        (classNameOf [(0, strL "Wheat___Rust")]
          (resolveStep [(0, strL "Wheat___Rust")] [9 / 10]).1)
        (resolveStep [(0, strL "Wheat___Rust")] [9 / 10]).2 []) :=
  ⟨(claim_C2_confidence_gate [1 / 20, 6 / 100, 4 / 100] [] []).1
      (by with_unfolding_all decide),
   (claim_C2_confidence_gate [9 / 10] [(0, strL "Wheat___Rust")] []).2
      (by with_unfolding_all decide)⟩

/-- Claim C9: the confidence reported to the caller is derived from the
original ScoreVector — the resolver hands the assembler the raw score at
the resolved index, unrounded — and the emitted confidence equals that
raw score rounded to 4 decimal places only at the assembler boundary. -/
theorem claim_C9_confidence_provenance (scores : List ℚ)
    (class_names : List (Nat × Label)) (info : List (Label × DiseaseData))
    (d : SuccessData) (hne : scores ≠ [])
    (h : predictCore scores class_names info = .success d) :
    (resolveStep class_names scores).2 =
      scores.getD (resolveStep class_names scores).1 0 ∧
    d.confidence = roundTo4 (scores.getD (resolveStep class_names scores).1 0) := by
  have hraw := resolveStep_confidence class_names hne
  refine ⟨hraw, ?_⟩
  by_cases hg : pyMax scores < 15 / 100
  · simp only [predictCore] at h
    rw [if_pos hg] at h
    exact absurd h (by simp)
  · simp only [predictCore] at h
    rw [if_neg hg] at h
    injection h with hd
    rw [← hd, ← hraw]
    simp [assemble]

/-- Witness for C9 at a concrete accepted score vector (empty index map,
so the resolver takes the argmax fallback). -/
theorem claim_C9_witness :
    (resolveStep [] [9 / 10]).2 =
      ([9 / 10] : List ℚ).getD (resolveStep [] [9 / 10]).1 0 ∧
    (assemble (strL "Unknown") (9 / 10) []).confidence =
      roundTo4 (([9 / 10] : List ℚ).getD (resolveStep [] [9 / 10]).1 0) :=
  claim_C9_confidence_provenance [9 / 10] [] []
    (assemble (strL "Unknown") (9 / 10) []) (by simp)
    (by with_unfolding_all decide)

/-- The plantHealth field of the assembled result is the metadata health
status when present, else derived from the assembled disease name. -/
theorem assemble_plantHealth_eq (label : Label) (conf : ℚ)
    (info : List (Label × DiseaseData)) :
    (assemble label conf info).plantHealth =
      ((List.lookup label info).getD DiseaseData.empty).health_status.getD
        (if containsHealthy (assemble label conf info).disease then strL "Healthy"
         else strL "Diseased") := rfl

/-- Claim C5: for every resolved label and confidence and every metadata
store, the assembled result carries the two pipeline-constant advisory
blocks unchanged, and with an empty store every remaining field is the
documented computed/templated default — no field is ever null or absent
(`SuccessData` fields are total by construction). -/
theorem claim_C5_result_assembler (label : Label) (conf : ℚ)
    (info : List (Label × DiseaseData)) :
    ((assemble label conf info).soilInsightsTips =
        [strL "Ensure soil is well-drained.",
         strL "Check and maintain appropriate pH levels."] ∧
      (assemble label conf info).weatherImpactRiskLevel = strL "Monitor" ∧
      (assemble label conf info).weatherImpactAdvice =
        strL "Monitor local weather forecasts for humidity spikes which promote fungal spread.") ∧
    (info = [] →
      (assemble label conf info).predictedClass = label ∧
      (assemble label conf info).crop = (decomposeLabel label).1 ∧
      (assemble label conf info).disease = (decomposeLabel label).2 ∧
      (assemble label conf info).confidence = roundTo4 conf ∧
      (assemble label conf info).plantHealth =
        (if containsHealthy (decomposeLabel label).2 then strL "Healthy"
         else strL "Diseased") ∧
      (assemble label conf info).diagnosis =
        diagTemplate (decomposeLabel label).1 (decomposeLabel label).2 conf ∧
      (assemble label conf info).treatment =
        [strL "Consult a local agronomist for treatment advice."] ∧
      (assemble label conf info).organicTreatment =
        [strL "Apply neem-based organic pesticide as a general precaution."] ∧
      (assemble label conf info).irrigationAdvice =
        strL "Monitor soil moisture; avoid waterlogging." ∧
      (assemble label conf info).fertilizerAdvice =
        strL "Maintain balanced NPK nutrition." ∧
      (assemble label conf info).growthStageStage = strL "Unknown" ∧
      (assemble label conf info).growthStageDaysToHarvest = 0 ∧
      (assemble label conf info).tutorial = []) := by
  constructor
  · exact ⟨rfl, rfl, rfl⟩
  · rintro rfl
    simp [assemble, DiseaseData.empty, unknownLabel]

/-- Witness for C5 at a concrete label, confidence and the empty store. -/
theorem claim_C5_witness :
    (assemble (strL "A") (1 / 2) []).predictedClass = strL "A" :=
  ((claim_C5_result_assembler (strL "A") (1 / 2) []).2 rfl).1

/-- Claim C8: when the metadata record for the resolved label lacks a
health_status field, plantHealth is `"Healthy"` iff `"healthy"` occurs
case-insensitively in the resolved condition string, and is
`"Diseased"` iff it does not (so `"Diseased"` otherwise); and the
scenario scores `[0.9, 0.05, 0.03, 0.01, 0.01]` with index map
`{0: "Tomato___Healthy"}` and empty metadata resolves to crop
`"Tomato"`, condition `"Healthy"`, plantHealth `"Healthy"`. -/
theorem claim_C8_plant_health :
    (∀ (label : Label) (conf : ℚ) (info : List (Label × DiseaseData)),
      ((List.lookup label info).getD DiseaseData.empty).health_status = none →
      (((assemble label conf info).plantHealth = strL "Healthy" ↔
         containsHealthy ((assemble label conf info).disease) = true) ∧
       ((assemble label conf info).plantHealth = strL "Diseased" ↔
         containsHealthy ((assemble label conf info).disease) = false))) ∧
    (predictCore [9 / 10, 1 / 20, 3 / 100, 1 / 100, 1 / 100]
        [(0, strL "Tomato___Healthy")] [] =
      .success (assemble (strL "Tomato___Healthy") (9 / 10) []) ∧
     (assemble (strL "Tomato___Healthy") (9 / 10) []).predictedClass =
       strL "Tomato___Healthy" ∧
     (assemble (strL "Tomato___Healthy") (9 / 10) []).crop = strL "Tomato" ∧
     (assemble (strL "Tomato___Healthy") (9 / 10) []).disease = strL "Healthy" ∧
     (assemble (strL "Tomato___Healthy") (9 / 10) []).plantHealth = strL "Healthy") := by
  constructor
  · intro label conf info h
    rw [assemble_plantHealth_eq, h, Option.getD_none]
    have hne1 : strL "Diseased" ≠ strL "Healthy" := by decide
    have hne2 : strL "Healthy" ≠ strL "Diseased" := by decide
    by_cases hch : containsHealthy ((assemble label conf info).disease) = true
    · simp [hch, hne2]
    · simp [hch, hne1]
  · constructor
    · with_unfolding_all decide
    · with_unfolding_all decide

/-- Witness for C8 with the empty store, at the scenario label and at a
label whose condition lacks the `"healthy"` substring. -/
theorem claim_C8_witness :
    (((assemble (strL "Tomato___Healthy") (9 / 10) []).plantHealth = strL "Healthy" ↔
        containsHealthy ((assemble (strL "Tomato___Healthy") (9 / 10) []).disease) = true) ∧
     ((assemble (strL "Tomato___Healthy") (9 / 10) []).plantHealth = strL "Diseased" ↔
        containsHealthy ((assemble (strL "Tomato___Healthy") (9 / 10) []).disease) = false)) ∧
    (((assemble (strL "Potato___Late_blight") (1 / 2) []).plantHealth = strL "Healthy" ↔
        containsHealthy ((assemble (strL "Potato___Late_blight") (1 / 2) []).disease) = true) ∧
     ((assemble (strL "Potato___Late_blight") (1 / 2) []).plantHealth = strL "Diseased" ↔
        containsHealthy ((assemble (strL "Potato___Late_blight") (1 / 2) []).disease) = false)) :=
  ⟨claim_C8_plant_health.1 (strL "Tomato___Healthy") (9 / 10) [] (by decide),
   claim_C8_plant_health.1 (strL "Potato___Late_blight") (1 / 2) [] (by decide)⟩

/-- Claim C10: when a metadata record exists for the resolved label and
is non-empty, the crop and disease fields come from the record with the
literal `"Unknown"` substituted for a missing crop or disease field;
label decomposition runs only when the record is entirely absent or is
the empty record. -/
theorem claim_C10_metadata_precedence (label : Label) (conf : ℚ)
    (info : List (Label × DiseaseData)) (dd : DiseaseData) :
    (List.lookup label info = some dd → dd ≠ DiseaseData.empty →
      ((assemble label conf info).crop = dd.crop.getD unknownLabel ∧
       (assemble label conf info).disease = dd.disease.getD unknownLabel ∧
       (dd.crop = none → (assemble label conf info).crop = strL "Unknown") ∧
       (dd.disease = none → (assemble label conf info).disease = strL "Unknown"))) ∧
    ((List.lookup label info = none ∨ List.lookup label info = some DiseaseData.empty) →
      (assemble label conf info).crop = (decomposeLabel label).1 ∧
      (assemble label conf info).disease = (decomposeLabel label).2) := by
  constructor
  · intro hl hne
    refine ⟨by simp [assemble, hl, hne], by simp [assemble, hl, hne], ?_, ?_⟩
    · intro hc
      simp [assemble, hl, hne, hc, unknownLabel]
    · intro hd
      simp [assemble, hl, hne, hd, unknownLabel]
  · rintro (hl | hl) <;> simp [assemble, hl]

/-- Witness for C10: a record that exists but lacks the crop field makes
the crop `"Unknown"` instead of decomposing the label. -/
theorem claim_C10_witness :
    (assemble (strL "Potato___Late_blight") (1 / 2)
        [(strL "Potato___Late_blight",
          { diagnosis := some (strL "Late blight detected.") })]).crop =
      strL "Unknown" :=
  ((claim_C10_metadata_precedence (strL "Potato___Late_blight") (1 / 2)
      [(strL "Potato___Late_blight",
        { diagnosis := some (strL "Late blight detected.") })]
      { diagnosis := some (strL "Late blight detected.") }).1
    (by decide) (by decide)).2.2.1 rfl

/-- Claim C6: every failure in the soil or image pipeline (missing model
artifact, missing dependency, download failure, unparseable feature
string, any exception raised by a modelled stage) is caught at the
pipeline boundary and emitted as the single failure shape
`{success:false, status:"model_error", error}`, with the underlying cause
message preserved verbatim inside the error field; every invocation
produces exactly one of the documented result shapes, so no exception
escapes. -/
theorem claim_C6_error_boundary :
    (∀ env : ImageEnv, env.modelExists = false →
      predict env = .modelError
        (strL "Model not loaded — file not found: " ++ env.modelPath)) ∧
    (∀ (env : ImageEnv) (e : Label), env.modelExists = true →
      env.tfImportErr = some e →
      predict env = .modelError (strL "TensorFlow missing: " ++ e ++
        strL ". Run: pip install -r requirements.txt")) ∧
    (∀ (env : ImageEnv) (e : Label), env.modelExists = true →
      env.tfImportErr = none → env.loadErr = some e →
      predict env = .modelError e) ∧
    (∀ (env : ImageEnv) (e : Label), env.modelExists = true →
      env.tfImportErr = none → env.loadErr = none → env.downloadErr = some e →
      predict env = .modelError (strL "Failed to download image: " ++ e)) ∧
    (∀ (env : ImageEnv) (e : Label), env.modelExists = true →
      env.tfImportErr = none → env.loadErr = none → env.downloadErr = none →
      env.inferErr = some e → predict env = .modelError e) ∧
    (∀ env : ImageEnv, env.modelExists = true → env.tfImportErr = none →
      env.loadErr = none → env.downloadErr = none → env.inferErr = none →
      predict env = predictCore env.scores
        (env.classIndices.getD [(0, unknownLabel)]) env.diseaseInfo) ∧
    (∀ env : SoilEnv, env.modelExists = false →
      predict_soil env = .modelError
        (strL "Soil model not found: " ++ env.soilModelPath)) ∧
    (∀ (env : SoilEnv) (e : Label), env.modelExists = true →
      env.importErr = some e →
      predict_soil env = .modelError (strL "Missing Python dependency: " ++ e)) ∧
    (∀ (env : SoilEnv) (e : Label), env.modelExists = true →
      env.importErr = none → env.loadErr = some e →
      predict_soil env = .modelError e) ∧
    (∀ (env : SoilEnv) (e : Label), env.modelExists = true →
      env.importErr = none → env.loadErr = none → env.parseResult = .error e →
      predict_soil env = .modelError e) ∧
    (∀ (env : SoilEnv) (e : Label) (vals : List ℚ), env.modelExists = true →
      env.importErr = none → env.loadErr = none → env.parseResult = .ok vals →
      env.modelPredict = .error e → predict_soil env = .modelError e) ∧
    (∀ env : ImageEnv, (∃ e, predict env = .modelError e) ∨
      (∃ m, predict env = .invalidImage m) ∨ (∃ d, predict env = .success d)) := by
  refine ⟨?_, ?_, ?_, ?_, ?_, ?_, ?_, ?_, ?_, ?_, ?_, ?_⟩
  · intro env h
    simp [predict, h]
  · intro env e h1 h2
    simp [predict, h1, h2]
  · intro env e h1 h2 h3
    simp [predict, h1, h2, h3]
  · intro env e h1 h2 h3 h4
    simp [predict, h1, h2, h3, h4]
  · intro env e h1 h2 h3 h4 h5
    simp [predict, h1, h2, h3, h4, h5]
  · intro env h1 h2 h3 h4 h5
    simp [predict, h1, h2, h3, h4, h5]
  · intro env h
    simp [predict_soil, h]
  · intro env e h1 h2
    simp [predict_soil, h1, h2]
  · intro env e h1 h2 h3
    simp [predict_soil, h1, h2, h3]
  · intro env e h1 h2 h3 h4
    simp [predict_soil, h1, h2, h3, h4]
  · intro env e vals h1 h2 h3 h4 h5
    simp [predict_soil, h1, h2, h3, h4, h5]
  · intro env
    cases hp : predict env with
    | modelError e => exact Or.inl ⟨e, rfl⟩
    | invalidImage m => exact Or.inr (Or.inl ⟨m, rfl⟩)
    | success d => exact Or.inr (Or.inr ⟨d, rfl⟩)

/-- Witness for C6: a missing image model file and an unparseable soil
feature string each surface as the single failure shape with the cause
preserved. -/
theorem claim_C6_witness :
    predict ⟨strL "crop_disease_model.h5", false, none, none, none, [],
        none, none, []⟩ =
      .modelError (strL "Model not loaded — file not found: " ++
        strL "crop_disease_model.h5") ∧
    predict_soil ⟨strL "soil_model.pkl", true, none, none,
        .error (strL "could not convert string to float: abc"), .ok 0⟩ =
      .modelError (strL "could not convert string to float: abc") :=
  ⟨claim_C6_error_boundary.1
      ⟨strL "crop_disease_model.h5", false, none, none, none, [], none, none, []⟩ rfl,
   claim_C6_error_boundary.2.2.2.2.2.2.2.2.2.1
      ⟨strL "soil_model.pkl", true, none, none,
        .error (strL "could not convert string to float: abc"), .ok 0⟩
      (strL "could not convert string to float: abc") rfl rfl rfl rfl⟩

/-- Claim C7: the tabular mapper returns the three fixed
(status, recommendation) pairs for class ids 0, 1 and 2; every other
integer class id yields the templated status `"Class {id}"` and the
generic consult-an-agronomist recommendation; and for any integer class
id a successfully running soil pipeline emits a success result — never
an error. -/
theorem claim_C7_tabular_mapper :
    (soilStatus 0 = strL "Balanced Soil" ∧
     soilStatus 1 = strL "Nutrient Deficient — Low Nitrogen / Organic Matter" ∧
     soilStatus 2 = strL "Nutrient Deficient — Low Phosphorus / Potassium" ∧
     soilRec 0 = strL "Soil is well-balanced. Maintain regular composting and pH monitoring." ∧
     soilRec 1 = strL "Apply organic compost or urea to restore nitrogen levels. Consider green manure." ∧
     soilRec 2 = strL "Apply DAP (Di-ammonium Phosphate) or MOP (Muriate of Potash) as appropriate.") ∧
    (∀ c : Int, c ≠ 0 → c ≠ 1 → c ≠ 2 →
      soilStatus c = strL "Class " ++ intToStr c ∧
      soilRec c = strL "Consult an agronomist.") ∧
    (∀ (env : SoilEnv) (c : Int) (vals : List ℚ),
      env.modelExists = true → env.importErr = none → env.loadErr = none →
      env.parseResult = .ok vals → env.modelPredict = .ok c →
      predict_soil env = .success (soilStatus c) c (soilRec c)) := by
  refine ⟨by decide, ?_, ?_⟩
  · intro c h0 h1 h2
    have e0 : (c == 0) = false := beq_eq_false_iff_ne.mpr h0
    have e1 : (c == 1) = false := beq_eq_false_iff_ne.mpr h1
    have e2 : (c == 2) = false := beq_eq_false_iff_ne.mpr h2
    constructor <;> simp [soilStatus, soilRec, List.lookup, e0, e1, e2]
  · intro env c vals h1 h2 h3 h4 h5
    simp [predict_soil, h1, h2, h3, h4, h5]

/-- Witness for C7 at the out-of-table class id 99. -/
theorem claim_C7_witness :
    soilStatus 99 = strL "Class " ++ intToStr 99 ∧
    soilRec 99 = strL "Consult an agronomist." :=
  claim_C7_tabular_mapper.2.1 99 (by decide) (by decide) (by decide)

end GreenTrace
